import Mathlib

/-
Verification of the parallel worker-pool engine in
src/examples/gameOfTag/parallel_policy.py and of the PPO action helper in
src/examples/gameOfTag/ppo.py (qyshen815/SMARTS, gameOfTag example).

The embedding is shallow:
* `ParallelPolicy_init` embeds the live body of `ParallelPolicy.__init__`
  (parallel_policy.py lines 46-99).  Python attribute lookup on `self` is made
  explicit (`getattr` over the list of attribute names assigned so far), since
  the live code reads the never-assigned attribute `env_constructors`.
* `workerLoop` / `runWorker` embed the `_worker` process body given at
  parallel_policy.py lines 231-297.  The Actor (policy+environment) is the
  external collaborator: a record of `reset`/`step`/`seed`/`close` operations
  over an abstract state type; fallible operations return `Except Exc`.
* `reset_wait` / `step_wait` embed the method bodies given at
  parallel_policy.py lines 131-209, and `ParallelPolicy_seed` the seed
  fragment at lines 124-129.  One pipe per worker is modelled by tagging every
  message that arrived within the wait's timeout window with its worker index
  (`recvQueue i` is worker i's pipe content); the gym-style helpers
  `_assert_is_running`, `_poll` and `_raise_if_errors`, whose bodies are not
  in the source file, are modelled from the spec where noted.
* `ParallelPolicy_close` is modelled from the spec (the class has no close
  method in the source file).
* `_dict_to_ordered_list`, `actLoop` and `PPO_act` embed ppo.py lines 145-182;
  the TensorFlow model and the seeded categorical sampler are abstract
  deterministic functions, the sampler threading an explicit RNG state.
-/

set_option linter.unusedVariables false
set_option synthInstance.maxSize 3000

deriving instance DecidableEq for Except

namespace GameOfTag

/-- Python exceptions raised by the live constructor code. -/
inductive PyError where
  | typeError (msg : String)
  | attributeError (attr : String)
  | nameError (missing : String)
deriving Repr, DecidableEq

/-- Python attribute lookup on `self`, modelled as membership in the list of
attribute names assigned so far; a miss raises `AttributeError`. -/
def getattr (attrs : List String) (attrName : String) : Except PyError Unit :=
  if attrName ∈ attrs then Except.ok () else Except.error (PyError.attributeError attrName)

/-- Attributes assigned on `self` by `ParallelPolicy.__init__` before the
worker-spawning loop at line 78 runs (lines 70-77, in order). -/
def initSelfAttrs : List String :=
  ["_polling_period", "policy_constructors", "error_queue", "parent_pipes", "processes"]

/-- Observable outcome of `ParallelPolicy.__init__`: whether the non-fatal
oversubscription warning fired, how many worker processes had been started
when the constructor finished or raised, and the constructor's result. -/
structure InitOutcome where
  warned : Bool
  processesStarted : Nat
  result : Except PyError Unit
deriving Repr, DecidableEq

/-- ParallelPolicy.__init__ (parallel_policy.py lines 46-99).  A constructor
mapping entry is its name paired with its `callable(...)` status; `cpu_count`
is `mp.cpu_count()`.  Control flow of the live code: warn if oversubscribed
(lines 55-61); raise `TypeError` on any non-callable entry (lines 63-67);
assign `_polling_period`, `policy_constructors`, `error_queue`,
`parent_pipes`, `processes` (lines 70-77); then `enumerate(self.env_constructors)`
(line 78) looks up the attribute `env_constructors`, which was never assigned.
Were that lookup to succeed, the first loop iteration would evaluate the free
module name `_worker` (line 81), which the module never binds (the function is
commented out), so no process is ever started on any path. -/
def ParallelPolicy_init (cpu_count : Nat) (policy_constructors : List (String × Bool)) :
    InitOutcome :=
  let warned := decide (policy_constructors.length > cpu_count)
  if policy_constructors.any (fun ctor => !ctor.2) then
    { warned := warned, processesStarted := 0,
      result := Except.error (PyError.typeError "Found non-callable policy_constructors") }
  else
    match getattr initSelfAttrs "env_constructors" with
    | Except.error e => { warned := warned, processesStarted := 0, result := Except.error e }
    | Except.ok _ =>
      if policy_constructors.isEmpty then
        { warned := warned, processesStarted := 0, result := Except.ok () }
      else
        { warned := warned, processesStarted := 0,
          result := Except.error (PyError.nameError "_worker") }

/-- Exceptions inside a worker: a `KeyboardInterrupt`, or an ordinary Python
exception with its type name and message (matching the two except clauses of
`_worker`, lines 289-294). -/
inductive Exc where
  | keyboardInterrupt
  | exception (kind msg : String)
deriving Repr, DecidableEq

/-- One entry placed on the shared error queue: the worker's index, the
exception information, and whether the traceback was replaced by the fixed
string `Traceback is hidden.` (the `KeyboardInterrupt` branch, line 290). -/
structure ErrorReport where
  index : Nat
  exc : Exc
  tracebackHidden : Bool
deriving Repr, DecidableEq

/-- Error-queue entry produced by the two except clauses of `_worker`:
`(index, sys.exc_info()[0], "Traceback is hidden.")` for `KeyboardInterrupt`
(line 290), `(index,) + sys.exc_info()[:2]` otherwise (line 293). -/
def mkReport (index : Nat) (e : Exc) : ErrorReport :=
  match e with
  | Exc.keyboardInterrupt => { index := index, exc := e, tracebackHidden := true }
  | Exc.exception _ _ => { index := index, exc := e, tracebackHidden := false }

/-- A Python `done` dict: sub-agent id to flag, with the distinguished key
`__all__` for the all-done flag. -/
abbrev DoneMap := List (String × Bool)

/-- Python dict lookup `d[k]` returning `none` where Python raises `KeyError`. -/
def dictLookup {β : Type} (d : List (String × β)) (k : String) : Option β :=
  (d.find? (fun kv => kv.1 == k)).map (fun kv => kv.2)

/-- Commands sent Pool to Worker over the pipe (`_worker`'s dispatch strings
`reset`, `step`, `seed`, `close`, `_get_spaces`, plus an unknown command). -/
inductive Command (Act : Type) where
  | reset
  | step (a : Act)
  | seed (v : Int)
  | close
  | getSpaces
  | unknown (cmd : String)
deriving Repr, DecidableEq

/-- Payload of a message sent Worker to Pool on the pipe; `pyNone` is Python's
`None` (the initial ready message and every failure reply, lines 259/291/294). -/
inductive Payload (Obs Rew Info : Type) where
  | pyNone
  | obs (o : Obs)
  | stepResult (o : Obs) (r : Rew) (d : DoneMap) (i : Info)
  | seedVal (v : Int)
  | spaces (obsSpace actSpace : Nat)
deriving Repr, DecidableEq

/-- How one pass over the finite command list left the worker loop: exited via
`close`, still polling for more commands, or terminated by an exception. -/
inductive LoopExit where
  | closed
  | running
  | raised (e : Exc)
deriving Repr, DecidableEq

/-- The Actor (external collaborator per spec section 6): a policy+environment
unit with abstract state `S`; fallible operations return `Except Exc`. -/
structure Actor (S Obs Act Rew Info : Type) where
  reset : S → Except Exc (S × Obs)
  step : S → Act → Except Exc (S × Obs × Rew × DoneMap × Info)
  seed : S → Int → Except Exc (S × Int)
  close : S → S
  observation_space : Nat
  action_space : Nat

/-- Prepend a sent message to a loop continuation's message list. -/
def addMsg {M E : Type} (m : M) (p : List M × E) : List M × E := (m :: p.1, p.2)

/-- The `while True` command loop of `_worker` (parallel_policy.py lines
262-288), run over a finite list of incoming commands; returns the messages
sent on the pipe and how the loop ended.  `step` looks up `done["__all__"]`
(`KeyError` if absent) and, when it is true and `auto_reset` is set, resets
the environment and substitutes the fresh observation while `reward`, `done`
and `info` from the step are sent unchanged (lines 270-278). -/
def workerLoop {S Obs Act Rew Info : Type} (A : Actor S Obs Act Rew Info)
    (auto_reset : Bool) :
    S → List (Command Act) → List (Payload Obs Rew Info × Bool) × LoopExit
  | _, [] => ([], LoopExit.running)
  | s, c :: rest =>
    match c with
    | Command.reset =>
      match A.reset s with
      | Except.error e => ([], LoopExit.raised e)
      | Except.ok (s1, o) =>
        addMsg (Payload.obs o, true) (workerLoop A auto_reset s1 rest)
    | Command.step a =>
      match A.step s a with
      | Except.error e => ([], LoopExit.raised e)
      | Except.ok (s1, o, r, d, i) =>
        match dictLookup d "__all__" with
        | none => ([], LoopExit.raised (Exc.exception "KeyError" "__all__"))
        | some allDone =>
          if allDone && auto_reset then
            match A.reset s1 with
            | Except.error e => ([], LoopExit.raised e)
            | Except.ok (s2, o2) =>
              addMsg (Payload.stepResult o2 r d i, true) (workerLoop A auto_reset s2 rest)
          else
            addMsg (Payload.stepResult o r d i, true) (workerLoop A auto_reset s1 rest)
    | Command.seed v =>
      match A.seed s v with
      | Except.error e => ([], LoopExit.raised e)
      | Except.ok (s1, v1) =>
        addMsg (Payload.seedVal v1, true) (workerLoop A auto_reset s1 rest)
    | Command.close => ([(Payload.pyNone, true)], LoopExit.closed)
    | Command.getSpaces =>
      addMsg (Payload.spaces A.observation_space A.action_space, true)
        (workerLoop A auto_reset s rest)
    | Command.unknown cmd => ([], LoopExit.raised (Exc.exception "KeyError" cmd))

/-- Externally visible effects of one `_worker` process run: every message sent
on its pipe (in order, including the initial ready message), the error-queue
entries it produced, whether `env.close()` and `pipe.close()` ran, and an
exception escaping `_worker` uncaught, if any. -/
structure WorkerRun (Obs Rew Info : Type) where
  pipeOut : List (Payload Obs Rew Info × Bool)
  errorReports : List ErrorReport
  envClosed : Bool
  pipeClosed : Bool
  uncaught : Option Exc
deriving Repr, DecidableEq

/-- The `_worker` process body (parallel_policy.py lines 252-297).
`constructed` is the result of `env_constructor(sim_name=name)` at line 256:
that call and the ready message (line 259) sit outside the try block, so a
construction failure escapes uncaught, with no error report, no reply, and no
`env.close()`.  After a successful construction the loop runs under
try/except/finally: a raised exception yields one error-queue entry and a
failure-flagged `(None, False)` reply, and `finally` closes the environment
and the pipe on both the close path and the exception paths. -/
def runWorker {S Obs Act Rew Info : Type} (A : Actor S Obs Act Rew Info) (index : Nat)
    (auto_reset : Bool) (constructed : Except Exc S) (cmds : List (Command Act)) :
    WorkerRun Obs Rew Info :=
  match constructed with
  | Except.error e =>
    { pipeOut := [], errorReports := [], envClosed := false, pipeClosed := false,
      uncaught := some e }
  | Except.ok s0 =>
    let msgs := (workerLoop A auto_reset s0 cmds).1
    match (workerLoop A auto_reset s0 cmds).2 with
    | LoopExit.closed =>
      { pipeOut := (Payload.pyNone, true) :: msgs, errorReports := [],
        envClosed := true, pipeClosed := true, uncaught := none }
    | LoopExit.running =>
      { pipeOut := (Payload.pyNone, true) :: msgs, errorReports := [],
        envClosed := false, pipeClosed := false, uncaught := none }
    | LoopExit.raised e =>
      { pipeOut := (Payload.pyNone, true) :: msgs ++ [(Payload.pyNone, false)],
        errorReports := [mkReport index e],
        envClosed := true, pipeClosed := true, uncaught := none }

/-- The pool's async-batch state machine (gym-style `AsyncState`): `default`
is Idle, the `waiting` states record the pending batched operation. -/
inductive AsyncState where
  | default
  | waitingReset
  | waitingStep
deriving Repr, DecidableEq

/-- Errors raised by the pool's wait methods.  `noAsyncCallError` carries the
state the wait expected; `workersError` carries the drained error queue;
`unpackTypeError` is the `TypeError` Python raises when `zip(*results)` meets
a `None` payload. -/
inductive PoolError where
  | closedError
  | noAsyncCallError (expected : AsyncState)
  | timeoutError
  | workersError (reports : List ErrorReport)
  | unpackTypeError
deriving Repr, DecidableEq

/-- Pool-side state used by the wait methods: how many workers (one pipe
each, in constructor-mapping iteration order), whether the pool was closed,
the async state, and the pending error-queue content. -/
structure Pool where
  numWorkers : Nat
  closed : Bool
  state : AsyncState
  errorQueue : List ErrorReport
deriving Repr, DecidableEq

/-- Content of worker `i`'s pipe during one wait: the messages that arrived
within the timeout window, tagged by worker index, filtered to `i`.  Tagging
keeps the arrival interleaving across workers explicit while each pipe stays
point-to-point. -/
def recvQueue {M : Type} (arrivals : List (Nat × M)) (i : Nat) : List M :=
  (arrivals.filter (fun a => a.1 == i)).map (fun a => a.2)

/-- Modelled from the spec: the gym-internal `self._poll(timeout)` helper is
not in the source file; per spec section 4.2 it polls all worker channels for
replies up to the timeout, succeeding only if every worker's reply arrived. -/
def pollAll {M : Type} (n : Nat) (arrivals : List (Nat × M)) : Bool :=
  (List.range n).all (fun i => !(recvQueue arrivals i).isEmpty)

/-- Turns a list of options into `some` list exactly when all entries are
`some` (the unpacking step `zip(*results)`, which raises on a `None`). -/
def allSome {α : Type} : List (Option α) → Option (List α)
  | [] => some []
  | none :: _ => none
  | some a :: rest => (allSome rest).map (fun l => a :: l)

/-- A step reply's payload: `(observation, reward, done, info)` on success,
`None` on a failure reply. -/
abbrev StepPayload (Obs Rew Info : Type) := Option (Obs × Rew × DoneMap × Info)

/-- ParallelPolicy.step_wait (parallel_policy.py lines 165-209).  Modelled
from the spec where the gym helpers are missing from the source file:
`_assert_is_running` fails with a closed-pool error once the pool is closed,
and `_raise_if_errors` drains the error queue into an aggregated error when
any reply is failure-flagged.  The live lines: raise `NoAsyncCallError`
unless the state is `WAITING_STEP` (lines 185-190); on poll failure reset the
state to default and raise `TimeoutError` before any `recv` (lines 192-197);
otherwise `recv` once per pipe in worker-index order, check success flags,
reset the state, and unzip the results (lines 199-209). -/
def step_wait {Obs Rew Info : Type} (pool : Pool)
    (arrivals : List (Nat × (StepPayload Obs Rew Info × Bool))) :
    Pool × Except PoolError (List Obs × List Rew × List DoneMap × List Info) :=
  if pool.closed then (pool, Except.error PoolError.closedError)
  else if pool.state ≠ AsyncState.waitingStep then
    (pool, Except.error (PoolError.noAsyncCallError AsyncState.waitingStep))
  else if pollAll pool.numWorkers arrivals = false then
    ({ pool with state := AsyncState.default }, Except.error PoolError.timeoutError)
  else
    let msgs := (List.range pool.numWorkers).filterMap
      (fun i => (recvQueue arrivals i).head?)
    if msgs.any (fun m => m.2 = false) then
      (pool, Except.error (PoolError.workersError pool.errorQueue))
    else
      match allSome (msgs.map (fun m => m.1)) with
      | none => (pool, Except.error PoolError.unpackTypeError)
      | some results =>
        ({ pool with state := AsyncState.default },
          Except.ok
            (results.map (fun t => t.1), results.map (fun t => t.2.1),
              results.map (fun t => t.2.2.1), results.map (fun t => t.2.2.2)))

/-- ParallelPolicy.reset_wait (parallel_policy.py lines 131-163): same guard
and poll structure as `step_wait`, expecting `WAITING_RESET`; on success it
returns the reply payloads (observations) verbatim, one per worker in
worker-index order. -/
def reset_wait {Obs : Type} (pool : Pool)
    (arrivals : List (Nat × (Option Obs × Bool))) :
    Pool × Except PoolError (List (Option Obs)) :=
  if pool.closed then (pool, Except.error PoolError.closedError)
  else if pool.state ≠ AsyncState.waitingReset then
    (pool, Except.error (PoolError.noAsyncCallError AsyncState.waitingReset))
  else if pollAll pool.numWorkers arrivals = false then
    ({ pool with state := AsyncState.default }, Except.error PoolError.timeoutError)
  else
    let msgs := (List.range pool.numWorkers).filterMap
      (fun i => (recvQueue arrivals i).head?)
    if msgs.any (fun m => m.2 = false) then
      (pool, Except.error (PoolError.workersError pool.errorQueue))
    else
      ({ pool with state := AsyncState.default }, Except.ok (msgs.map (fun m => m.1)))

/-- The seed batch's receive half (parallel_policy.py lines 124-129): one
`recv` per pipe in worker-index order, a success-flag check, then the seed
payloads are returned; the fragment has no state guard and no poll. -/
def ParallelPolicy_seed (pool : Pool) (arrivals : List (Nat × (Option Int × Bool))) :
    Except PoolError (List (Option Int)) :=
  let msgs := (List.range pool.numWorkers).filterMap
    (fun i => (recvQueue arrivals i).head?)
  if msgs.any (fun m => m.2 = false) then
    Except.error (PoolError.workersError pool.errorQueue)
  else
    Except.ok (msgs.map (fun m => m.1))

/-- Count of Close commands sent and of worker processes joined by one call
to close. -/
structure CloseEffects where
  closeCommandsSent : Nat
  workersJoined : Nat
deriving Repr, DecidableEq

/-- Modelled from the spec: `ParallelPolicy.close` is absent from the source
file (the class defines no close method, though train.py line 356 calls it).
Per spec section 4.2: send `Close` to every worker, wait for each
`CloseReply`, join every worker, and mark the pool closed; a second call on
an already-closed pool is a no-op that sends nothing and joins nothing. -/
def ParallelPolicy_close (pool : Pool) : Pool × CloseEffects :=
  if pool.closed then (pool, { closeCommandsSent := 0, workersJoined := 0 })
  else
    ({ pool with closed := true },
      { closeCommandsSent := pool.numWorkers, workersJoined := pool.numWorkers })

/-- Decidable list-prefix test (elementwise equality). -/
def listPre {α : Type} [DecidableEq α] : List α → List α → Bool
  | [], _ => true
  | _ :: _, [] => false
  | a :: as, b :: bs => if a = b then listPre as bs else false

/-- Decidable contiguous-sublist test, used to embed the Python substring
test `needle in haystack`. -/
def listIn {α : Type} [DecidableEq α] (n : List α) : List α → Bool
  | [] => n.isEmpty
  | a :: as => listPre n (a :: as) || listIn n as

/-- The Python substring test `needle in haystack` on strings. -/
def pyContains (needle haystack : String) : Bool :=
  listIn needle.data haystack.data

/-- The helper at ppo.py lines 177-182: takes the dict's items and sorts them
in place by key (`li.sort(key=lambda tup: tup[0])`).  A Python dict is an
association list in insertion order with no duplicate keys. -/
def _dict_to_ordered_list {β : Type} (dic : List (String × β)) : List (String × β) :=
  List.insertionSort (fun a b => a.1 ≤ b.1) dic

/-- The loop of PPO.act (ppo.py lines 154-168) over the ordered items: each
entry whose key contains the policy's name as a substring is fed to the
model, the categorical sampler draws one sample (threading the RNG state, as
the NOTE at lines 152-153 warns that sampling order affects reproducibility),
and the three result dicts collect `actions`, `action_samples` and `values`
in iteration order.  The `expand_dims`/`squeeze` shape plumbing is folded
into the abstract `model` and `sample` functions. -/
def actLoop {Obs Logits Value Sample Rng : Type} (name : String)
    (model : Obs → Logits × Value) (sample : Logits → Rng → Sample × Rng) :
    List (String × Obs) → Rng →
      List (String × Logits) × List (String × Sample) × List (String × Value)
  | [], _ => ([], [], [])
  | (vehicle, state) :: rest, rng =>
    if pyContains name vehicle then
      let mv := model state
      let sr := sample mv.1 rng
      let tail := actLoop name model sample rest sr.2
      ((vehicle, mv.1) :: tail.1, (vehicle, sr.1) :: tail.2.1, (vehicle, mv.2) :: tail.2.2)
    else
      actLoop name model sample rest rng

/-- PPO.act (ppo.py lines 145-169): orders the observation dict's items by
key with `_dict_to_ordered_list`, then runs the filtered model/sample loop. -/
def PPO_act {Obs Logits Value Sample Rng : Type} (name : String)
    (model : Obs → Logits × Value) (sample : Logits → Rng → Sample × Rng)
    (rng0 : Rng) (obs : List (String × Obs)) :
    List (String × Logits) × List (String × Sample) × List (String × Value) :=
  actLoop name model sample (_dict_to_ordered_list obs) rng0

/-- A concrete deterministic Actor over natural-number data, used to evaluate
the worker embedding on closed inputs. -/
def toyActor : Actor Nat Nat Nat Nat Nat where
  reset := fun s => Except.ok (s + 1, 1000 + s)
  step := fun s a =>
    Except.ok (s + 1, 10 + s, a + s, [("agent0", true), ("__all__", true)], 7 + s)
  seed := fun s v => Except.ok (s, v)
  close := fun s => s
  observation_space := 1
  action_space := 2

/-- Key order on dict items is total. -/
instance {β : Type} : IsTotal (String × β) (fun a b => a.1 ≤ b.1) :=
  ⟨fun a b => le_total a.1 b.1⟩

/-- Key order on dict items is transitive. -/
instance {β : Type} : IsTrans (String × β) (fun a b => a.1 ≤ b.1) :=
  ⟨fun _ _ _ h1 h2 => le_trans h1 h2⟩

/-- Strict key order on dict items is vacuously antisymmetric. -/
instance {β : Type} : IsAntisymm (String × β) (fun a b => a.1 < b.1) :=
  ⟨fun _ _ h1 h2 => absurd h2 (not_lt.mpr (le_of_lt h1))⟩

/-- C1: the claim says construction, on a valid all-callable mapping, waits
for an initial ready Reply from every spawned worker and never returns a
partial pool.  The code cannot do this: the ready-wait (lines 101-103) is
commented out, and the constructor raises `AttributeError` at line 78 by
reading the never-assigned attribute `env_constructors`, so on the valid
2-entry mapping below it starts zero workers and raises instead of returning
a pool with 2 ready workers. -/
theorem construction_fails_before_ready_wait :
    ParallelPolicy_init 8 [("predator", true), ("prey", true)] =
      { warned := false, processesStarted := 0,
        result := Except.error (PyError.attributeError "env_constructors") } := by
  decide

/-- C2: for every constructor mapping whose entries are all callable,
`ParallelPolicy.__init__` raises `AttributeError` before starting any worker
process, because line 78 reads the attribute `env_constructors`, which is
never assigned, while the mapping was stored under `policy_constructors`
(whose lookup would succeed). -/
theorem init_reads_unassigned_env_constructors
    (cpu_count : Nat) (policy_constructors : List (String × Bool))
    (hcallable : ∀ c ∈ policy_constructors, c.2 = true) :
    (ParallelPolicy_init cpu_count policy_constructors).result =
        Except.error (PyError.attributeError "env_constructors") ∧
    (ParallelPolicy_init cpu_count policy_constructors).processesStarted = 0 ∧
    getattr initSelfAttrs "policy_constructors" = Except.ok () := by
  have hany : policy_constructors.any (fun ctor => !ctor.2) = false := by
    rw [List.any_eq_false]
    intro c hc
    simp [hcallable c hc]
  refine ⟨?_, ?_, by decide⟩ <;>
    simp [ParallelPolicy_init, hany, getattr, initSelfAttrs]

/-- Witness for C2 at the concrete valid one-entry mapping. -/
theorem init_reads_unassigned_env_constructors_witness :
    (ParallelPolicy_init 4 [("prey", true)]).result =
        Except.error (PyError.attributeError "env_constructors") ∧
    (ParallelPolicy_init 4 [("prey", true)]).processesStarted = 0 ∧
    getattr initSelfAttrs "policy_constructors" = Except.ok () :=
  init_reads_unassigned_env_constructors 4 [("prey", true)] (by decide)

/-- C3: for every constructor mapping containing a non-callable entry,
construction fails fast, before any worker is spawned, with the error the
spec's taxonomy calls `ConfigurationError`: the `TypeError` of lines 63-67
identifying the bad constructor mapping. -/
theorem init_noncallable_fails_fast
    (cpu_count : Nat) (policy_constructors : List (String × Bool))
    (hbad : ∃ c ∈ policy_constructors, c.2 = false) :
    (ParallelPolicy_init cpu_count policy_constructors).result =
        Except.error (PyError.typeError "Found non-callable policy_constructors") ∧
    (ParallelPolicy_init cpu_count policy_constructors).processesStarted = 0 := by
  have hany : policy_constructors.any (fun ctor => !ctor.2) = true := by
    simp only [List.any_eq_true, Bool.not_eq_true']
    exact hbad
  constructor <;> simp [ParallelPolicy_init, hany]

/-- Witness for C3 at a concrete mapping with one non-callable entry. -/
theorem init_noncallable_fails_fast_witness :
    (ParallelPolicy_init 4 [("predator", true), ("prey", false)]).result =
        Except.error (PyError.typeError "Found non-callable policy_constructors") ∧
    (ParallelPolicy_init 4 [("predator", true), ("prey", false)]).processesStarted = 0 :=
  init_noncallable_fails_fast 4 [("predator", true), ("prey", false)]
    ⟨("prey", false), by decide, rfl⟩

/-- C4: when a Step command's result from Actor.step has the all-done flag
set (`done["__all__"]` is true) and auto-reset is enabled, the worker
immediately calls Actor.reset and the step reply carries the freshly reset
observation in place of the terminal one, while `reward`, `done` and the
step's `info` — through which the Actor exposes the true terminal
observation — are sent unchanged (parallel_policy.py lines 270-278). -/
theorem step_all_done_auto_resets
    {S Obs Act Rew Info : Type} (A : Actor S Obs Act Rew Info) (s0 s1 s2 : S)
    (a : Act) (o o2 : Obs) (r : Rew) (d : DoneMap) (i : Info)
    (cmds : List (Command Act))
    (hstep : A.step s0 a = Except.ok (s1, o, r, d, i))
    (hall : dictLookup d "__all__" = some true)
    (hreset : A.reset s1 = Except.ok (s2, o2)) :
    workerLoop A true s0 (Command.step a :: cmds) =
      ((Payload.stepResult o2 r d i, true) :: (workerLoop A true s2 cmds).1,
        (workerLoop A true s2 cmds).2) := by
  simp [workerLoop, hstep, hall, hreset, addMsg]

/-- Witness for C4: the toy Actor's step from state 0 ends the episode
(`__all__` true); with auto-reset on, the reply holds the reset observation
1001 while reward, done and info from the step are preserved. -/
theorem step_all_done_auto_resets_witness :
    workerLoop toyActor true 0 [Command.step 5] =
      ((Payload.stepResult 1001 5 [("agent0", true), ("__all__", true)] 7, true) ::
          (workerLoop toyActor true 2 []).1,
        (workerLoop toyActor true 2 []).2) :=
  step_all_done_auto_resets toyActor 0 1 2 5 10 1001 5
    [("agent0", true), ("__all__", true)] 7 [] rfl (by decide) rfl

/-- C5 (amended): for every exception raised while executing a command inside
the worker loop, the worker produces exactly one error-queue entry carrying
its worker index together with a failure-flagged `(None, False)` reply, and
Actor.close runs on both the exception exit and the normal close exit; but an
exception thrown during Actor construction at worker start escapes `_worker`
uncaught, with no error report, no reply, and no Actor.close (construction at
line 256 sits outside the try block). -/
theorem worker_failure_reporting
    {S Obs Act Rew Info : Type} (A : Actor S Obs Act Rew Info) (index : Nat)
    (auto_reset : Bool) (s0 : S) (cmds : List (Command Act)) (e : Exc)
    (hraise : (workerLoop A auto_reset s0 cmds).2 = LoopExit.raised e) :
    runWorker A index auto_reset (Except.ok s0) cmds =
        { pipeOut := (Payload.pyNone, true) :: (workerLoop A auto_reset s0 cmds).1
            ++ [(Payload.pyNone, false)],
          errorReports := [mkReport index e],
          envClosed := true, pipeClosed := true, uncaught := none } ∧
    (mkReport index e).index = index ∧
    (∀ (s1 : S) (cmds1 : List (Command Act)),
      (workerLoop A auto_reset s1 cmds1).2 = LoopExit.closed →
      runWorker A index auto_reset (Except.ok s1) cmds1 =
        { pipeOut := (Payload.pyNone, true) :: (workerLoop A auto_reset s1 cmds1).1,
          errorReports := [], envClosed := true, pipeClosed := true,
          uncaught := none }) ∧
    (∀ e0 : Exc, runWorker A index auto_reset (Except.error e0) cmds =
      { pipeOut := [], errorReports := [], envClosed := false, pipeClosed := false,
        uncaught := some e0 }) := by
  refine ⟨?_, ?_, ?_, ?_⟩
  · simp [runWorker, hraise]
  · cases e <;> simp [mkReport]
  · intro s1 cmds1 hclosed
    simp [runWorker, hclosed]
  · intro e0
    simp [runWorker]

/-- Witness for C5 (amended): an unknown command raises `KeyError` inside the
toy worker's loop; the run shows the error report with index 3, the trailing
failure reply, and the close flags, while a construction failure propagates
bare. -/
theorem worker_failure_reporting_witness :
    runWorker toyActor 3 true (Except.ok 0) [Command.unknown "foo"] =
        { pipeOut := (Payload.pyNone, true) ::
            (workerLoop toyActor true 0 [Command.unknown "foo"]).1
            ++ [(Payload.pyNone, false)],
          errorReports := [mkReport 3 (Exc.exception "KeyError" "foo")],
          envClosed := true, pipeClosed := true, uncaught := none } ∧
    (mkReport 3 (Exc.exception "KeyError" "foo")).index = 3 ∧
    (∀ (s1 : Nat) (cmds1 : List (Command Nat)),
      (workerLoop toyActor true s1 cmds1).2 = LoopExit.closed →
      runWorker toyActor 3 true (Except.ok s1) cmds1 =
        { pipeOut := (Payload.pyNone, true) :: (workerLoop toyActor true s1 cmds1).1,
          errorReports := [], envClosed := true, pipeClosed := true,
          uncaught := none }) ∧
    (∀ e0 : Exc, runWorker toyActor 3 true (Except.error e0) [Command.unknown "foo"] =
      { pipeOut := [], errorReports := [], envClosed := false, pipeClosed := false,
        uncaught := some e0 }) :=
  worker_failure_reporting toyActor 3 true 0 [Command.unknown "foo"]
    (Exc.exception "KeyError" "foo") rfl

/-- C5 counterexample: on the failure path where Actor construction throws at
worker start, the worker produces no error report, sends no failure-flagged
reply, and never invokes Actor.close — contradicting the claim that every
failure path produces both and that close always runs. -/
theorem worker_construction_failure_is_silent :
    (runWorker toyActor 0 true (Except.error (Exc.exception "Exception" "boom"))
        []).errorReports = [] ∧
    (runWorker toyActor 0 true (Except.error (Exc.exception "Exception" "boom"))
        []).pipeOut = [] ∧
    (runWorker toyActor 0 true (Except.error (Exc.exception "Exception" "boom"))
        []).envClosed = false :=
  ⟨rfl, rfl, rfl⟩

/-- Helper: a `filterMap` whose function is `some` on every element of the
list is a `map`. -/
theorem filterMap_eq_map_of_some {α β : Type} {l : List α} {F : α → Option β}
    {G : α → β} (h : ∀ a ∈ l, F a = some (G a)) : l.filterMap F = l.map G := by
  induction l with
  | nil => rfl
  | cons a l ih =>
    have ha := h a (List.mem_cons_self a l)
    simp [List.filterMap_cons, ha, ih (fun b hb => h b (List.mem_cons_of_mem a hb))]

/-- Helper: `allSome` of an all-`some` list succeeds with the mapped list. -/
theorem allSome_map_some {α β : Type} (l : List α) (g : α → β) :
    allSome (l.map (fun x => some (g x))) = some (l.map g) := by
  induction l with
  | nil => rfl
  | cons a l ih => simp [allSome, ih]

/-- Helper: if every worker below `n` has exactly the one pending message
`m i`, the per-pipe receive over worker indices is the map of `m`. -/
theorem recv_msgs_eq_map {M : Type} {n : Nat} {arrivals : List (Nat × M)}
    {m : Nat → M} (hq : ∀ i < n, recvQueue arrivals i = [m i]) :
    (List.range n).filterMap (fun i => (recvQueue arrivals i).head?) =
      (List.range n).map m := by
  apply filterMap_eq_map_of_some
  intro i hi
  rw [hq i (List.mem_range.mp hi)]
  rfl

/-- Helper: if every worker below `n` has a pending message, the poll over
all worker channels succeeds. -/
theorem pollAll_of_queues {M : Type} {n : Nat} {arrivals : List (Nat × M)}
    {m : Nat → M} (hq : ∀ i < n, recvQueue arrivals i = [m i]) :
    pollAll n arrivals = true := by
  rw [pollAll, List.all_eq_true]
  intro i hi
  rw [hq i (List.mem_range.mp hi)]
  rfl

/-- C6: on a non-closed pool whose state is not the matching awaiting state,
`step_wait` (and likewise `reset_wait`) fails immediately with
`NoAsyncCallError`, leaving the pool unchanged and consuming no replies,
whatever messages are pending on the pipes (lines 185-190 and 145-150). -/
theorem wait_without_async_raises
    {Obs Rew Info : Type} (pool : Pool)
    (sarr : List (Nat × (StepPayload Obs Rew Info × Bool)))
    (rarr : List (Nat × (Option Obs × Bool)))
    (hclosed : pool.closed = false) :
    (pool.state ≠ AsyncState.waitingStep →
      step_wait pool sarr =
        (pool, Except.error (PoolError.noAsyncCallError AsyncState.waitingStep))) ∧
    (pool.state ≠ AsyncState.waitingReset →
      reset_wait pool rarr =
        (pool, Except.error (PoolError.noAsyncCallError AsyncState.waitingReset))) := by
  constructor <;> intro h <;> simp [step_wait, reset_wait, hclosed, h]

/-- Witness for C6 on a concrete idle pool: both waits fail with
`NoAsyncCallError` without any prior async call. -/
theorem wait_without_async_raises_witness :
    step_wait
        { numWorkers := 2, closed := false, state := AsyncState.default, errorQueue := [] }
        ([] : List (Nat × (StepPayload Nat Nat Nat × Bool))) =
      ({ numWorkers := 2, closed := false, state := AsyncState.default, errorQueue := [] },
        Except.error (PoolError.noAsyncCallError AsyncState.waitingStep)) ∧
    reset_wait
        { numWorkers := 2, closed := false, state := AsyncState.default, errorQueue := [] }
        ([] : List (Nat × (Option Nat × Bool))) =
      ({ numWorkers := 2, closed := false, state := AsyncState.default, errorQueue := [] },
        Except.error (PoolError.noAsyncCallError AsyncState.waitingReset)) :=
  ⟨(wait_without_async_raises _ ([] : List (Nat × (StepPayload Nat Nat Nat × Bool)))
      ([] : List (Nat × (Option Nat × Bool))) rfl).1 (by decide),
    (wait_without_async_raises _ ([] : List (Nat × (StepPayload Nat Nat Nat × Bool)))
      ([] : List (Nat × (Option Nat × Bool))) rfl).2 (by decide)⟩

/-- C7: when not every worker's reply arrives within the timeout, the wait
resets the pool state to Idle (`AsyncState.default`) and fails with
`TimeoutError`, consuming no replies and returning no partial results
(lines 192-197 and 152-157). -/
theorem wait_timeout_discards_results
    {Obs Rew Info : Type} (pool : Pool)
    (sarr : List (Nat × (StepPayload Obs Rew Info × Bool)))
    (rarr : List (Nat × (Option Obs × Bool)))
    (hclosed : pool.closed = false) :
    (pool.state = AsyncState.waitingStep → pollAll pool.numWorkers sarr = false →
      step_wait pool sarr =
        ({ pool with state := AsyncState.default }, Except.error PoolError.timeoutError)) ∧
    (pool.state = AsyncState.waitingReset → pollAll pool.numWorkers rarr = false →
      reset_wait pool rarr =
        ({ pool with state := AsyncState.default }, Except.error PoolError.timeoutError)) := by
  constructor <;> intro h hp <;> simp [step_wait, reset_wait, hclosed, h, hp]

/-- Witness for C7: a 1-worker pool awaiting a step whose worker never
replies times out to the Idle state. -/
theorem wait_timeout_discards_results_witness :
    step_wait
        { numWorkers := 1, closed := false, state := AsyncState.waitingStep, errorQueue := [] }
        ([] : List (Nat × (StepPayload Nat Nat Nat × Bool))) =
      ({ numWorkers := 1, closed := false, state := AsyncState.default, errorQueue := [] },
        Except.error PoolError.timeoutError) :=
  (wait_timeout_discards_results _ [] ([] : List (Nat × (Option Nat × Bool)))
    rfl).1 rfl (by decide)

/-- C9: for a completed batch over the pool's workers — every worker's
single reply present and success-flagged, in whatever arrival interleaving —
the matching wait returns results positionally ordered by worker index:
position `i` of every returned sequence comes from worker `i`'s reply, for
step (lines 199-209), reset (lines 159-163) and seed (lines 124-129). -/
theorem wait_results_ordered_by_worker_index
    {Obs Rew Info : Type} (pool : Pool)
    (sarr : List (Nat × (StepPayload Obs Rew Info × Bool)))
    (rarr : List (Nat × (Option Obs × Bool)))
    (sdarr : List (Nat × (Option Int × Bool)))
    (f : Nat → Obs × Rew × DoneMap × Info) (g : Nat → Obs) (h : Nat → Int)
    (hclosed : pool.closed = false)
    (hs : ∀ i < pool.numWorkers, recvQueue sarr i = [(some (f i), true)])
    (hr : ∀ i < pool.numWorkers, recvQueue rarr i = [(some (g i), true)])
    (hsd : ∀ i < pool.numWorkers, recvQueue sdarr i = [(some (h i), true)]) :
    (pool.state = AsyncState.waitingStep →
      (step_wait pool sarr).2 =
        Except.ok ((List.range pool.numWorkers).map (fun i => (f i).1),
          (List.range pool.numWorkers).map (fun i => (f i).2.1),
          (List.range pool.numWorkers).map (fun i => (f i).2.2.1),
          (List.range pool.numWorkers).map (fun i => (f i).2.2.2))) ∧
    (pool.state = AsyncState.waitingReset →
      (reset_wait pool rarr).2 =
        Except.ok ((List.range pool.numWorkers).map (fun i => some (g i)))) ∧
    ParallelPolicy_seed pool sdarr =
      Except.ok ((List.range pool.numWorkers).map (fun i => some (h i))) := by
  refine ⟨?_, ?_, ?_⟩
  · intro hstate
    simp [step_wait, hclosed, hstate, pollAll_of_queues hs, recv_msgs_eq_map hs,
      List.map_map, Function.comp_def, allSome_map_some]
  · intro hstate
    simp [reset_wait, hclosed, hstate, pollAll_of_queues hr, recv_msgs_eq_map hr,
      List.map_map, Function.comp_def]
  · simp [ParallelPolicy_seed, recv_msgs_eq_map hsd, List.map_map, Function.comp_def]

/-- Witness for C9: two workers whose step and seed replies arrive in
reversed order (worker 1 first) are still returned with worker 0's data at
position 0 and worker 1's at position 1. -/
theorem wait_results_ordered_by_worker_index_witness :
    (step_wait
        { numWorkers := 2, closed := false, state := AsyncState.waitingStep, errorQueue := [] }
        [(1, (some (101, 6, [("__all__", true)], 10), true)),
          (0, (some (100, 5, [("__all__", true)], 9), true))]).2 =
      Except.ok (([100, 101] : List Nat), ([5, 6] : List Nat),
        ([[("__all__", true)], [("__all__", true)]] : List DoneMap), ([9, 10] : List Nat)) ∧
    ParallelPolicy_seed
        { numWorkers := 2, closed := false, state := AsyncState.waitingStep, errorQueue := [] }
        [(1, (some 21, true)), (0, (some 20, true))] =
      Except.ok [some 20, some 21] := by
  have hs2 : ∀ i < 2, recvQueue
      ([(1, (some (101, 6, [("__all__", true)], 10), true)),
        (0, (some (100, 5, [("__all__", true)], 9), true))] :
          List (Nat × (StepPayload Nat Nat Nat × Bool))) i =
      [(some (100 + i, 5 + i, [("__all__", true)], 9 + i), true)] := by decide
  have hr2 : ∀ i < 2, recvQueue
      ([(1, (some 11, true)), (0, (some 10, true))] : List (Nat × (Option Nat × Bool))) i =
      [(some (10 + i), true)] := by decide
  have hsd2 : ∀ i < 2, recvQueue
      ([(1, (some 21, true)), (0, (some 20, true))] : List (Nat × (Option Int × Bool))) i =
      [(some (20 + (i : Int)), true)] := by decide
  have h := wait_results_ordered_by_worker_index
    { numWorkers := 2, closed := false, state := AsyncState.waitingStep, errorQueue := [] }
    [(1, (some (101, 6, [("__all__", true)], 10), true)),
      (0, (some (100, 5, [("__all__", true)], 9), true))]
    ([(1, (some 11, true)), (0, (some 10, true))] : List (Nat × (Option Nat × Bool)))
    [(1, (some 21, true)), (0, (some 20, true))]
    (fun i => (100 + i, 5 + i, [("__all__", true)], 9 + i))
    (fun i => 10 + i) (fun i => 20 + (i : Int))
    rfl hs2 hr2 hsd2
  exact ⟨h.1 rfl, h.2.2⟩

/-- C8: close is idempotent: a second close of an already-closed pool is a
no-op that sends no Close commands and joins no worker a second time, and
the wait operations on a closed pool fail with the closed-pool error. -/
theorem close_idempotent_ops_after_close_fail
    {Obs Rew Info : Type} (pool : Pool)
    (sarr : List (Nat × (StepPayload Obs Rew Info × Bool)))
    (rarr : List (Nat × (Option Obs × Bool))) :
    ParallelPolicy_close (ParallelPolicy_close pool).1 =
      ((ParallelPolicy_close pool).1,
        { closeCommandsSent := 0, workersJoined := 0 }) ∧
    step_wait (ParallelPolicy_close pool).1 sarr =
      ((ParallelPolicy_close pool).1, Except.error PoolError.closedError) ∧
    reset_wait (ParallelPolicy_close pool).1 rarr =
      ((ParallelPolicy_close pool).1, Except.error PoolError.closedError) := by
  have hclosed : (ParallelPolicy_close pool).1.closed = true := by
    by_cases h : pool.closed <;> simp [ParallelPolicy_close, h]
  set q := (ParallelPolicy_close pool).1 with hq
  refine ⟨?_, ?_, ?_⟩ <;> simp [ParallelPolicy_close, step_wait, reset_wait, hclosed]

/-- Helper: a list of dict items pairwise ordered by key whose keys are
distinct is pairwise strictly ordered by key. -/
theorem pairwise_key_lt_of_le_nodup {β : Type} {l : List (String × β)}
    (hs : l.Pairwise (fun a b => a.1 ≤ b.1)) (hk : (l.map Prod.fst).Nodup) :
    l.Pairwise (fun a b => a.1 < b.1) := by
  have hne : l.Pairwise (fun a b => a.1 ≠ b.1) := List.pairwise_map.mp hk
  exact (hs.and hne).imp (fun h => lt_of_le_of_ne h.1 h.2)

/-- Helper: on dicts with distinct keys, the key-sorted item list depends
only on the set of items, not on their insertion order. -/
theorem dict_order_canonical {β : Type} {l1 l2 : List (String × β)}
    (hp : l1.Perm l2) (hk : (l1.map Prod.fst).Nodup) :
    _dict_to_ordered_list l1 = _dict_to_ordered_list l2 := by
  have e1 : (_dict_to_ordered_list l1).Perm l1 := List.perm_insertionSort _ l1
  have e2 : (_dict_to_ordered_list l2).Perm l2 := List.perm_insertionSort _ l2
  have hp12 : (_dict_to_ordered_list l1).Perm (_dict_to_ordered_list l2) :=
    e1.trans (hp.trans e2.symm)
  have hs1 : (_dict_to_ordered_list l1).Pairwise (fun a b => a.1 ≤ b.1) :=
    List.sorted_insertionSort _ l1
  have hs2 : (_dict_to_ordered_list l2).Pairwise (fun a b => a.1 ≤ b.1) :=
    List.sorted_insertionSort _ l2
  have hk1 : ((_dict_to_ordered_list l1).map Prod.fst).Nodup :=
    ((e1.map Prod.fst).nodup_iff).mpr hk
  have hk2 : ((_dict_to_ordered_list l2).map Prod.fst).Nodup :=
    ((e2.map Prod.fst).nodup_iff).mpr (((hp.map Prod.fst).nodup_iff).mp hk)
  exact List.eq_of_perm_of_sorted hp12 (pairwise_key_lt_of_le_nodup hs1 hk1)
    (pairwise_key_lt_of_le_nodup hs2 hk2)

/-- C10: PPO.act processes its observation dict's items in ascending key
order via `_dict_to_ordered_list` (which returns the items sorted by key — a
key-ordered permutation of the dict), restricted to keys containing the
policy name as a substring; hence for a deterministic model and sampler, two
dicts holding the same key-value pairs in different insertion orders yield
identical (actions, action_samples, values). -/
theorem act_insertion_order_invariant
    {Obs Logits Value Sample Rng : Type} (name : String)
    (model : Obs → Logits × Value) (sample : Logits → Rng → Sample × Rng)
    (rng0 : Rng) (obs1 obs2 : List (String × Obs))
    (hperm : obs1.Perm obs2) (hkeys : (obs1.map Prod.fst).Nodup) :
    (_dict_to_ordered_list obs1).Pairwise (fun a b => a.1 ≤ b.1) ∧
    (_dict_to_ordered_list obs1).Perm obs1 ∧
    PPO_act name model sample rng0 obs1 = PPO_act name model sample rng0 obs2 := by
  refine ⟨List.sorted_insertionSort _ obs1, List.perm_insertionSort _ obs1, ?_⟩
  rw [PPO_act, PPO_act, dict_order_canonical hperm hkeys]

/-- Witness for C10: two insertion orders of the same two-entry observation
dict, under the policy name predator (matching only the key containing it),
give identical results. -/
theorem act_insertion_order_invariant_witness :
    (_dict_to_ordered_list [("prey_2", (7 : Nat)), ("predator_1", 5)]).Pairwise
        (fun a b => a.1 ≤ b.1) ∧
    (_dict_to_ordered_list [("prey_2", (7 : Nat)), ("predator_1", 5)]).Perm
        [("prey_2", 7), ("predator_1", 5)] ∧
    PPO_act "predator" (fun s : Nat => (s + 1, s + 2))
        (fun l r : Nat => (l + r, r + 1)) 0 [("prey_2", 7), ("predator_1", 5)] =
      PPO_act "predator" (fun s : Nat => (s + 1, s + 2))
        (fun l r : Nat => (l + r, r + 1)) 0 [("predator_1", 5), ("prey_2", 7)] :=
  act_insertion_order_invariant "predator" (fun s : Nat => (s + 1, s + 2))
    (fun l r : Nat => (l + r, r + 1)) 0 [("prey_2", 7), ("predator_1", 5)]
    [("predator_1", 5), ("prey_2", 7)] (by decide) (by decide)

end GameOfTag
